import Mathlib

/-!
Verification development for `video_server.py` (dashboard_simple).

The file shallowly embeds the core of `VideoServer`:

* the shared frame store (`self.current_frame` guarded by `self.frame_lock`,
  `video_server.py` lines 25-26),
* the per-connection ingest handler `handle_client` (lines 310-358),
* the `/video_feed` chunk generator `generate` (lines 237-258),
* the `/status` route (lines 262-269),
* and, structurally, which store accesses are performed while holding the lock.

Bytes are `Nat` (values below 256 where it matters).  A closed TCP connection
delivering a finite byte sequence is modelled as a `List Nat`; reaching the end
of the list is the peer having closed the socket, so `recv n` returns
`take n` of what remains (empty exactly when the peer has closed).  The
external OpenCV library (`cv2.imdecode`, `cv2.imencode`, `np.zeros`,
`cv2.putText`) is not code of this repository; it is abstracted as a `CV`
record of opaque functions, and a small concrete instance `mcv` is used to
evaluate the model on concrete inputs.
-/

/-- Shared frame store of `VideoServer.__init__` (lines 25-26): the single
slot `self.current_frame`, which is either `None` or a decoded image.  The
code keeps no other per-store data — in particular no sequence counter. -/
structure SharedFrameStore (Image : Type) where
  currentFrame : Option Image
deriving DecidableEq

/-- Write of `handle_client` lines 338-339: `self.current_frame = frame`. -/
def writeFrame {Image : Type} (_s : SharedFrameStore Image) (f : Image) :
    SharedFrameStore Image :=
  { currentFrame := some f }

/-- Clear of `handle_client` lines 357-358 (the `finally` block):
`self.current_frame = None`. -/
def clearFrame {Image : Type} (_s : SharedFrameStore Image) :
    SharedFrameStore Image :=
  { currentFrame := none }

/-- Read of the store: the value of `self.current_frame` as observed by the
`/video_feed` generator (line 240) and the `/status` route (line 266). -/
def readFrame {Image : Type} (s : SharedFrameStore Image) : Option Image :=
  s.currentFrame

/-- JSON object returned by the `/status` route (lines 265-269). -/
structure StatusResp where
  connected : Bool
  tcp_port : Nat
  web_port : Nat
deriving DecidableEq

/-- The `/status` route (lines 262-269): `connected` is
`self.current_frame is not None`; the ports are `self.port` and
`self.web_port`. -/
def statusRoute {Image : Type} (s : SharedFrameStore Image)
    (port webPort : Nat) : StatusResp :=
  { connected := (readFrame s).isSome, tcp_port := port, web_port := webPort }

/-- Abstraction of the external OpenCV/numpy calls used by the server.  These
are library functions, not code of this repository, so they are kept opaque;
every theorem below quantifies over them unless it evaluates the concrete
model instance `mcv`. -/
structure CV (Image : Type) where
  /-- cv2.imdecode(np.frombuffer(data, np.uint8), cv2.IMREAD_COLOR), line 334;
  `none` both when imdecode returns None (line 342) and when decoding raises
  (line 345) — the handler treats the two identically (drop and continue). -/
  imdecode : List Nat → Option Image
  /-- enc85 models cv2.imencode with IMWRITE_JPEG_QUALITY 85, line 242
  (the live-frame branch of the `/video_feed` generator). -/
  enc85 : Image → List Nat
  /-- encDefault models cv2.imencode with default options, line 252
  (the placeholder branch). -/
  encDefault : Image → List Nat
  /-- zeros480x640 models np.zeros((480, 640, 3), dtype=np.uint8), line 249. -/
  zeros480x640 : Image
  /-- putText models cv2.putText(img, text, ...), line 250: draws the given
  text onto the image. -/
  putText : Image → String → Image

/-- The placeholder image of `/video_feed` lines 249-251: a 480x640 black
image with the text drawn on it. -/
def placeholderImage {Image : Type} (cv : CV Image) : Image :=
  cv.putText cv.zeros480x640 "No Video Stream"

/-- ASCII bytes of a string (all characters used are 7-bit). -/
def asciiBytes (s : String) : List Nat :=
  s.data.map Char.toNat

/-- One multipart chunk as yielded at lines 245-246 and 255-256:
the boundary/header bytes, the JPEG bytes, then CRLF. -/
def mjpegWrap (body : List Nat) : List Nat :=
  asciiBytes "--frame\r\nContent-Type: image/jpeg\r\n\r\n" ++ body ++
    asciiBytes "\r\n"

/-- One iteration of the `/video_feed` generator body (lines 239-256): under
the lock, if a frame is present re-encode it at quality 85 and wrap it,
otherwise build the placeholder, encode it with defaults, and wrap it. -/
def chunkFor {Image : Type} (cv : CV Image) (s : SharedFrameStore Image) :
    List Nat :=
  match s.currentFrame with
  | some f => mjpegWrap (cv.enc85 f)
  | none => mjpegWrap (cv.encDefault (placeholderImage cv))

/-- struct.unpack('!I', b) of line 319: defined exactly on 4-byte inputs
(struct.error — an exception — otherwise), yielding the big-endian value. -/
def unpackBE : List Nat → Option Nat
  | [b0, b1, b2, b3] => some (((b0 * 256 + b1) * 256 + b2) * 256 + b3)
  | _ => none

/-- The 4 big-endian base-256 digits of `L` (the producer-side
struct.pack('!I', L); see also spec section 4.1's wire format). -/
def lenBytes (L : Nat) : List Nat :=
  [L / 16777216 % 256, L / 65536 % 256, L / 256 % 256, L % 256]

/-- A complete framed message: 4-byte big-endian length then the payload. -/
def frameMsg (p : List Nat) : List Nat :=
  lenBytes p.length ++ p

/-- Observable events of one `handle_client` run, one per print/outcome:
`frameReceived` (line 341), `decodeFailed` (lines 343 and 346, which the
handler treats identically), `incompleteFrame` (line 348), `clientError`
(line 351, the outer `except`, e.g. struct.error from a short length field),
`disconnected` (line 353, the `finally` block). -/
inductive Event where
  | frameReceived
  | decodeFailed
  | incompleteFrame
  | clientError
  | disconnected
deriving DecidableEq

/-- The `while self.running` receive loop of `handle_client` (lines 313-348),
run to completion against a closed connection's byte sequence `stream`.
`fuel` only bounds the recursion; every iteration that recurses consumes at
least the 4 header bytes, so any `fuel > stream.length` is enough (the
`fuel = 0` branch is unreachable under that bound).

Per iteration, exactly as in the source: `recv(4)` (= `take 4`); empty means
the peer closed, break (line 317); `struct.unpack('!I', ·)` fails on a 1-3
byte read, raising out to the outer `except` (line 350); otherwise the inner
loop (lines 322-327) accumulates `min(frame_size, remaining)` payload bytes;
a full payload is decoded and, on success, written to the store under the
lock (lines 329-346); a short payload logs an incomplete frame and the outer
loop continues (lines 347-348). -/
def handleLoopF {Image : Type} (cv : CV Image) :
    Nat → List Nat → SharedFrameStore Image →
    SharedFrameStore Image × List Event
  | 0, _, s => (s, [])
  | fuel + 1, stream, s =>
    if stream = [] then (s, [])
    else
      match unpackBE (stream.take 4) with
      | none => (s, [Event.clientError])
      | some L =>
        let rest := stream.drop 4
        let frameData := rest.take L
        let rest2 := rest.drop L
        if frameData.length = L then
          match cv.imdecode frameData with
          | some f =>
            let r := handleLoopF cv fuel rest2 (writeFrame s f)
            (r.1, Event.frameReceived :: r.2)
          | none =>
            let r := handleLoopF cv fuel rest2 s
            (r.1, Event.decodeFailed :: r.2)
        else
          let r := handleLoopF cv fuel rest2 s
          (r.1, Event.incompleteFrame :: r.2)

/-- The receive loop on a finite stream, with enough fuel. -/
def handleLoop {Image : Type} (cv : CV Image) (stream : List Nat)
    (s : SharedFrameStore Image) : SharedFrameStore Image × List Event :=
  handleLoopF cv (stream.length + 1) stream s

/-- All of `handle_client` (lines 310-358): run the receive loop, then the
`finally` block (lines 352-358) closes the socket and clears the store
unconditionally. -/
def handleClient {Image : Type} (cv : CV Image) (stream : List Nat)
    (s : SharedFrameStore Image) : SharedFrameStore Image × List Event :=
  let r := handleLoop cv stream s
  (clearFrame r.1, r.2 ++ [Event.disconnected])

/-- Which store operation a source location performs. -/
inductive AccessOp where
  | write
  | read
  | clear
deriving DecidableEq

/-- A source location that touches `self.current_frame`, together with
whether that access happens inside a `with self.frame_lock:` block. -/
structure StoreAccess where
  op : AccessOp
  underLock : Bool
deriving DecidableEq

/-- Store accesses in `handle_client`: the write at lines 337-339 and the
clear at lines 356-358, both inside `with self.frame_lock:`. -/
def handleClientAccesses : List StoreAccess :=
  [{ op := AccessOp.write, underLock := true },
   { op := AccessOp.clear, underLock := true }]

/-- Store access in the `/video_feed` generator: the read at lines 239-256,
inside `with self.frame_lock:` (line 239). -/
def videoFeedAccesses : List StoreAccess :=
  [{ op := AccessOp.read, underLock := true }]

/-- Store access in the `/status` route: the read
`self.current_frame is not None` at line 266, which is NOT inside any
`with self.frame_lock:` block. -/
def statusAccesses : List StoreAccess :=
  [{ op := AccessOp.read, underLock := false }]

/-- Every source location that touches `self.current_frame`. -/
def allStoreAccesses : List StoreAccess :=
  handleClientAccesses ++ videoFeedAccesses ++ statusAccesses

/-- Concrete instance of the OpenCV abstraction, used to evaluate the model
on concrete inputs: images are byte lists, a payload decodes iff its first
byte is 255 (standing for a format magic byte — cv2.imdecode likewise fails
on byte sequences that carry no image header), and both encoders are the
identity. -/
def mcv : CV (List Nat) :=
  { imdecode := fun bs => if bs.head? = some 255 then some bs else none
    enc85 := fun img => img
    encDefault := fun img => img
    zeros480x640 := [0]
    putText := fun img text => img ++ asciiBytes text }

/-! ## Helper lemmas about the receive loop -/

theorem lenBytes_length (L : Nat) : (lenBytes L).length = 4 := rfl

theorem unpackBE_lenBytes (L : Nat) (hL : L < 4294967296) :
    unpackBE (lenBytes L) = some L := by
  simp only [lenBytes, unpackBE, Option.some.injEq]
  omega

theorem length_of_unpackBE_eq_some {bs : List Nat} {L : Nat}
    (h : unpackBE bs = some L) : bs.length = 4 := by
  match bs with
  | [_, _, _, _] => rfl
  | [] | [_] | [_, _] | [_, _, _] => simp [unpackBE] at h
  | _ :: _ :: _ :: _ :: _ :: _ => simp [unpackBE] at h

theorem handleLoopF_nil {Image : Type} (cv : CV Image) (fuel : Nat)
    (s : SharedFrameStore Image) (h : 0 < fuel) :
    handleLoopF cv fuel [] s = (s, []) := by
  cases fuel with
  | zero => omega
  | succ n => simp [handleLoopF]

theorem handleLoopF_fuel_irrel {Image : Type} (cv : CV Image) :
    ∀ f1 f2 (stream : List Nat) (s : SharedFrameStore Image),
      stream.length < f1 → stream.length < f2 →
      handleLoopF cv f1 stream s = handleLoopF cv f2 stream s := by
  intro f1
  induction f1 with
  | zero => intro f2 stream s h1 _; exact absurd h1 (Nat.not_lt_zero _)
  | succ n ih =>
    intro f2 stream s h1 h2
    cases f2 with
    | zero => exact absurd h2 (Nat.not_lt_zero _)
    | succ m =>
      simp only [handleLoopF]
      by_cases hs : stream = []
      · simp [hs]
      · simp only [if_neg hs]
        cases hu : unpackBE (stream.take 4) with
        | none => rfl
        | some L =>
          have hpos : 0 < stream.length := List.length_pos.mpr hs
          have h4 : 4 ≤ stream.length := by
            have ht := length_of_unpackBE_eq_some hu
            rw [List.length_take] at ht
            omega
          have hlen : ((stream.drop 4).drop L).length = stream.length - 4 - L := by
            simp [List.length_drop]; omega
          have hn : ((stream.drop 4).drop L).length < n := by omega
          have hm : ((stream.drop 4).drop L).length < m := by omega
          by_cases hfd : ((stream.drop 4).take L).length = L
          · simp only [if_pos hfd]
            cases cv.imdecode ((stream.drop 4).take L) with
            | some f => simp only [ih m _ _ hn hm]
            | none => simp only [ih m _ _ hn hm]
          · simp only [if_neg hfd, ih m _ _ hn hm]

theorem handleLoopF_msg {Image : Type} (cv : CV Image) (fuel L : Nat)
    (p rest : List Nat) (s : SharedFrameStore Image)
    (hL : L < 4294967296) (hp : p.length = L) :
    handleLoopF cv (fuel + 1) (lenBytes L ++ p ++ rest) s =
      match cv.imdecode p with
      | some f => ((handleLoopF cv fuel rest (writeFrame s f)).1,
                   Event.frameReceived :: (handleLoopF cv fuel rest (writeFrame s f)).2)
      | none => ((handleLoopF cv fuel rest s).1,
                 Event.decodeFailed :: (handleLoopF cv fuel rest s).2) := by
  rw [List.append_assoc]
  have hne : lenBytes L ++ (p ++ rest) ≠ [] := by simp [lenBytes]
  have htake : (lenBytes L ++ (p ++ rest)).take 4 = lenBytes L :=
    List.take_left' rfl
  have hdrop : (lenBytes L ++ (p ++ rest)).drop 4 = p ++ rest :=
    List.drop_left' rfl
  have htake2 : (p ++ rest).take L = p := List.take_left' hp
  have hdrop2 : (p ++ rest).drop L = rest := List.drop_left' hp
  simp only [handleLoopF, if_neg hne, htake, hdrop, unpackBE_lenBytes L hL,
    htake2, hdrop2, hp, if_pos rfl]
  simp

theorem handleLoop_msg {Image : Type} (cv : CV Image) (L : Nat)
    (p rest : List Nat) (s : SharedFrameStore Image)
    (hL : L < 4294967296) (hp : p.length = L) :
    handleLoop cv (lenBytes L ++ p ++ rest) s =
      match cv.imdecode p with
      | some f => ((handleLoop cv rest (writeFrame s f)).1,
                   Event.frameReceived :: (handleLoop cv rest (writeFrame s f)).2)
      | none => ((handleLoop cv rest s).1,
                 Event.decodeFailed :: (handleLoop cv rest s).2) := by
  have hlen : (lenBytes L ++ p ++ rest).length = 4 + L + rest.length := by
    simp [lenBytes, hp]
    omega
  unfold handleLoop
  rw [hlen]
  rw [show 4 + L + rest.length + 1 = (4 + L + rest.length) + 1 from rfl]
  rw [handleLoopF_msg cv (4 + L + rest.length) L p rest s hL hp]
  have hirrel : ∀ s' : SharedFrameStore _,
      handleLoopF cv (4 + L + rest.length) rest s' =
      handleLoopF cv (rest.length + 1) rest s' := by
    intro s'
    exact handleLoopF_fuel_irrel cv _ _ rest s' (by omega) (by omega)
  cases cv.imdecode p with
  | some f => simp only [hirrel]
  | none => simp only [hirrel]

theorem handleLoop_nil {Image : Type} (cv : CV Image)
    (s : SharedFrameStore Image) : handleLoop cv [] s = (s, []) := rfl

theorem handleLoop_complete {Image : Type} (cv : CV Image) (L : Nat)
    (p : List Nat) (s : SharedFrameStore Image)
    (hL : L < 4294967296) (hp : p.length = L) :
    handleLoop cv (lenBytes L ++ p) s =
      match cv.imdecode p with
      | some f => (writeFrame s f, [Event.frameReceived])
      | none => (s, [Event.decodeFailed]) := by
  have h := handleLoop_msg cv L p [] s hL hp
  rw [List.append_nil] at h
  rw [h]
  cases cv.imdecode p with
  | some f => simp [handleLoop_nil]
  | none => simp [handleLoop_nil]

theorem handleLoop_truncated {Image : Type} (cv : CV Image) (L : Nat)
    (p : List Nat) (s : SharedFrameStore Image)
    (hL : L < 4294967296) (hp : p.length < L) :
    handleLoop cv (lenBytes L ++ p) s = (s, [Event.incompleteFrame]) := by
  have hne : lenBytes L ++ p ≠ [] := by simp [lenBytes]
  have htake : (lenBytes L ++ p).take 4 = lenBytes L := List.take_left' rfl
  have hdrop : (lenBytes L ++ p).drop 4 = p := List.drop_left' rfl
  have htake2 : p.take L = p := List.take_of_length_le (by omega)
  have hdrop2 : p.drop L = [] := List.drop_eq_nil_of_le (by omega)
  have hfd : ¬ (p.length = L) := by omega
  unfold handleLoop
  have hlen : (lenBytes L ++ p).length = 4 + p.length := by
    simp [lenBytes]; omega
  rw [hlen]
  simp only [handleLoopF, if_neg hne, htake, hdrop, unpackBE_lenBytes L hL,
    htake2, hdrop2, if_neg hfd]
  rw [handleLoopF_nil cv _ s (by omega)]

theorem handleLoop_short {Image : Type} (cv : CV Image) (stream : List Nat)
    (s : SharedFrameStore Image) (h1 : stream ≠ []) (h2 : stream.length < 4) :
    handleLoop cv stream s = (s, [Event.clientError]) := by
  have hu : unpackBE (stream.take 4) = none := by
    cases hv : unpackBE (stream.take 4) with
    | none => rfl
    | some L =>
      have := length_of_unpackBE_eq_some hv
      rw [List.length_take] at this
      omega
  unfold handleLoop
  cases hl : stream.length with
  | zero => exact absurd (List.length_eq_zero.mp hl) h1
  | succ n =>
    simp only [handleLoopF, if_neg h1, hu]

/-! ## Claim theorems -/

/-- C1 (counterexample): the round-trip claim fails as stated.  The spec's own
scenario input — a framed message whose 10 payload bytes merely "look valid"
but are not a decodable image — is dropped by the handler (`cv2.imdecode`
returns None, lines 334-343), so the store stays empty: the read does not
equal the payload, and the next `/video_feed` chunk is the placeholder chunk,
not the payload bytes. -/
theorem C1_counterexample :
    readFrame (handleLoop mcv (frameMsg (List.replicate 10 1)) ⟨none⟩).1 = none ∧
    chunkFor mcv (handleLoop mcv (frameMsg (List.replicate 10 1)) ⟨none⟩).1 ≠
      mjpegWrap (List.replicate 10 1) := by
  decide

/-- C1 (amended): for a framed payload that decodes as an image, the store
subsequently holds the decoded image — not the payload bytes — and the next
`/video_feed` chunk body is the quality-85 re-encoding of that decoded image;
a payload that fails to decode leaves the store unchanged. -/
theorem C1_store_holds_decoded_image {Image : Type} (cv : CV Image)
    (p : List Nat) (f : Image) (s : SharedFrameStore Image)
    (hL : p.length < 4294967296) (hdec : cv.imdecode p = some f) :
    (handleLoop cv (frameMsg p) s).1 = writeFrame s f ∧
    chunkFor cv (handleLoop cv (frameMsg p) s).1 = mjpegWrap (cv.enc85 f) := by
  have h := handleLoop_complete cv p.length p s hL rfl
  simp only [hdec] at h
  rw [frameMsg, h]
  exact ⟨rfl, rfl⟩

theorem C1_store_holds_decoded_image_witness :
    ([255, 7] : List Nat).length < 4294967296 ∧
    mcv.imdecode [255, 7] = some [255, 7] ∧
    ((handleLoop mcv (frameMsg [255, 7]) ⟨none⟩).1 = writeFrame ⟨none⟩ [255, 7] ∧
     chunkFor mcv (handleLoop mcv (frameMsg [255, 7]) ⟨none⟩).1 =
       mjpegWrap (mcv.enc85 [255, 7])) :=
  ⟨by decide, by decide,
   C1_store_holds_decoded_image mcv [255, 7] [255, 7] ⟨none⟩ (by decide) (by decide)⟩

/-- C2 (counterexample): the store maintains no sequence number at all.  Its
whole state is the single slot `self.current_frame`, so writing the same
frame twice yields the identical state; hence no function of the store state
can increase by one on every write, refuting the claimed counter. -/
theorem C2_counterexample :
    ¬ ∃ seq : SharedFrameStore (List Nat) → Nat,
        (∀ s f, seq (writeFrame s f) = seq s + 1) ∧
        (∀ s, seq (clearFrame s) = seq s + 1) := by
  rintro ⟨seq, hw, _⟩
  have h := hw (writeFrame ⟨none⟩ []) []
  simp only [writeFrame] at h
  omega

/-- C2 (amended): the store's state is exactly the optional current frame —
a write replaces it wholesale, a clear empties it, and repeating either
mutation leaves the state unchanged, so the code keeps no mutation counter. -/
theorem C2_store_state_is_only_the_frame {Image : Type}
    (s : SharedFrameStore Image) (f : Image) :
    (writeFrame s f).currentFrame = some f ∧
    (clearFrame s).currentFrame = none ∧
    writeFrame (writeFrame s f) f = writeFrame s f ∧
    clearFrame (clearFrame s) = clearFrame s :=
  ⟨rfl, rfl, rfl, rfl⟩

/-- C3 (counterexample): no maximum length is enforced.  Whatever bound
`Lmax` (below the 4-byte field's range) one proposes, a message with decoded
length `Lmax + 1` and a full decodable payload is not rejected: the handler
stores the frame and reports it received, rather than erroring out. -/
theorem C3_counterexample :
    ¬ ∃ Lmax : Nat, Lmax + 1 < 4294967296 ∧
        ∀ (L : Nat) (p : List Nat) (s : SharedFrameStore (List Nat)),
          Lmax < L → L < 4294967296 → p.length = L →
          (handleLoop mcv (lenBytes L ++ p) s).2 = [Event.clientError] := by
  rintro ⟨Lmax, hsize, h⟩
  have hlen : ((255 : Nat) :: List.replicate Lmax 255).length = Lmax + 1 := by
    simp
  have hdec : mcv.imdecode ((255 : Nat) :: List.replicate Lmax 255) =
      some ((255 : Nat) :: List.replicate Lmax 255) := by
    simp [mcv]
  have hc := handleLoop_complete mcv (Lmax + 1)
    ((255 : Nat) :: List.replicate Lmax 255) ⟨none⟩ hsize hlen
  simp only [hdec] at hc
  have h2 := h (Lmax + 1) ((255 : Nat) :: List.replicate Lmax 255) ⟨none⟩
    (by omega) hsize hlen
  rw [hc] at h2
  simp at h2

/-- C3 (amended): the implementation enforces no maximum on the decoded
length: every length expressible in the 4-byte field whose complete payload
arrives and decodes is accepted and written to the store, so the only bound
on buffer accumulation is the field's own 2^32 - 1 range. -/
theorem C3_no_length_bound {Image : Type} (cv : CV Image) (L : Nat)
    (p : List Nat) (f : Image) (s : SharedFrameStore Image)
    (hL : L < 4294967296) (hp : p.length = L) (hdec : cv.imdecode p = some f) :
    handleLoop cv (lenBytes L ++ p) s = (writeFrame s f, [Event.frameReceived]) := by
  have h := handleLoop_complete cv L p s hL hp
  simp only [hdec] at h
  exact h

theorem C3_no_length_bound_witness :
    (3 : Nat) < 4294967296 ∧ ([255, 1, 2] : List Nat).length = 3 ∧
    mcv.imdecode [255, 1, 2] = some [255, 1, 2] ∧
    handleLoop mcv (lenBytes 3 ++ [255, 1, 2]) ⟨none⟩ =
      (writeFrame ⟨none⟩ [255, 1, 2], [Event.frameReceived]) :=
  ⟨by decide, by decide, by decide,
   C3_no_length_bound mcv 3 [255, 1, 2] [255, 1, 2] ⟨none⟩
     (by decide) (by decide) (by decide)⟩

/-- C4 (confirmed): a connection sending a valid 4-byte length `L` and then
closing after fewer than `L` payload bytes is handled as a truncated-frame
error (line 348) and the handler terminates: mid-loop the store still holds
exactly what it held before (never a partial frame), the run ends through the
`finally` clear (store empty), and no handler exception occurs, so the accept
loop is unaffected. -/
theorem C4_truncation_safe {Image : Type} (cv : CV Image) (L : Nat)
    (p : List Nat) (s : SharedFrameStore Image)
    (hL : L < 4294967296) (hp : p.length < L) :
    (handleLoop cv (lenBytes L ++ p) s).1 = s ∧
    handleClient cv (lenBytes L ++ p) s =
      (⟨none⟩, [Event.incompleteFrame, Event.disconnected]) ∧
    Event.clientError ∉ (handleClient cv (lenBytes L ++ p) s).2 := by
  have h := handleLoop_truncated cv L p s hL hp
  have h2 : handleClient cv (lenBytes L ++ p) s =
      (⟨none⟩, [Event.incompleteFrame, Event.disconnected]) := by
    simp [handleClient, h, clearFrame]
  exact ⟨by rw [h], h2, by rw [h2]; simp⟩

theorem C4_truncation_safe_witness :
    (5 : Nat) < 4294967296 ∧ ([1, 2] : List Nat).length < 5 ∧
    ((handleLoop mcv (lenBytes 5 ++ [1, 2]) ⟨some [9]⟩).1 = ⟨some [9]⟩ ∧
     handleClient mcv (lenBytes 5 ++ [1, 2]) ⟨some [9]⟩ =
       (⟨none⟩, [Event.incompleteFrame, Event.disconnected]) ∧
     Event.clientError ∉ (handleClient mcv (lenBytes 5 ++ [1, 2]) ⟨some [9]⟩).2) :=
  ⟨by decide, by decide,
   C4_truncation_safe mcv 5 [1, 2] ⟨some [9]⟩ (by decide) (by decide)⟩

/-- C5 (counterexample): a connection that closes after delivering a single
byte of the length field is not treated as a clean end-of-stream: `recv(4)`
returns that one byte (non-empty, so the `break` at line 317 is not taken),
`struct.unpack('!I', ·)` raises on it, and the run ends through the outer
`except` — an error, contradicting the claim. -/
theorem C5_counterexample :
    handleClient mcv [0] ⟨none⟩ =
      (⟨none⟩, [Event.clientError, Event.disconnected]) := by
  decide

/-- C5 (amended): the handler issues one `recv` of up to 4 bytes for the
length field; only a connection that closes before sending any byte of it is
a clean end-of-stream, while one that closes after 1-3 bytes triggers a
struct unpack error that terminates the connection through the error path. -/
theorem C5_short_header {Image : Type} (cv : CV Image) (stream : List Nat)
    (s : SharedFrameStore Image) (hlen : stream.length < 4) :
    (stream = [] → handleClient cv stream s = (⟨none⟩, [Event.disconnected])) ∧
    (stream ≠ [] → handleClient cv stream s =
      (⟨none⟩, [Event.clientError, Event.disconnected])) := by
  constructor
  · intro h
    subst h
    simp [handleClient, handleLoop_nil, clearFrame]
  · intro h
    simp [handleClient, handleLoop_short cv stream s h hlen, clearFrame]

theorem C5_short_header_witness :
    ([5, 6] : List Nat).length < 4 ∧
    (([5, 6] : List Nat) = [] →
      handleClient mcv [5, 6] ⟨some [1]⟩ = (⟨none⟩, [Event.disconnected])) ∧
    (([5, 6] : List Nat) ≠ [] →
      handleClient mcv [5, 6] ⟨some [1]⟩ =
        (⟨none⟩, [Event.clientError, Event.disconnected])) :=
  ⟨by decide, (C5_short_header mcv [5, 6] ⟨some [1]⟩ (by decide)).1,
   (C5_short_header mcv [5, 6] ⟨some [1]⟩ (by decide)).2⟩

/-- C6 (confirmed): a complete framed payload that fails to decode is
non-fatal: the handler logs the failure, the store keeps exactly the value it
held before the failed decode, and the loop continues processing the rest of
the stream as the next framed messages. -/
theorem C6_decode_failure_nonfatal {Image : Type} (cv : CV Image) (L : Nat)
    (p rest : List Nat) (s : SharedFrameStore Image)
    (hL : L < 4294967296) (hp : p.length = L) (hdec : cv.imdecode p = none) :
    handleLoop cv (lenBytes L ++ p ++ rest) s =
      ((handleLoop cv rest s).1,
       Event.decodeFailed :: (handleLoop cv rest s).2) := by
  have h := handleLoop_msg cv L p rest s hL hp
  simp only [hdec] at h
  exact h

theorem C6_decode_failure_nonfatal_witness :
    (2 : Nat) < 4294967296 ∧ ([0, 0] : List Nat).length = 2 ∧
    mcv.imdecode [0, 0] = none ∧
    handleLoop mcv (lenBytes 2 ++ [0, 0] ++ []) ⟨some [9]⟩ =
      ((handleLoop mcv [] ⟨some [9]⟩).1,
       Event.decodeFailed :: (handleLoop mcv [] ⟨some [9]⟩).2) :=
  ⟨by decide, by decide, by decide,
   C6_decode_failure_nonfatal mcv 2 [0, 0] [] ⟨some [9]⟩
     (by decide) (by decide) (by decide)⟩

/-- C7 (confirmed): after a connection that wrote at least one frame
terminates (its run reports a received frame), the `finally` block has
cleared the store, so a subsequent read yields `none` and a subsequent
`/status` query reports `connected: false` — until some producer writes
again. -/
theorem C7_disconnect_clears {Image : Type} (cv : CV Image)
    (stream : List Nat) (s : SharedFrameStore Image)
    (_hwrote : Event.frameReceived ∈ (handleClient cv stream s).2) :
    readFrame (handleClient cv stream s).1 = none ∧
    (statusRoute (handleClient cv stream s).1 8080 5000).connected = false :=
  ⟨rfl, rfl⟩

theorem C7_disconnect_clears_witness :
    Event.frameReceived ∈ (handleClient mcv [0, 0, 0, 1, 255] ⟨none⟩).2 ∧
    (readFrame (handleClient mcv [0, 0, 0, 1, 255] ⟨none⟩).1 = none ∧
     (statusRoute (handleClient mcv [0, 0, 0, 1, 255] ⟨none⟩).1 8080 5000).connected
       = false) :=
  ⟨by decide, C7_disconnect_clears mcv [0, 0, 0, 1, 255] ⟨none⟩ (by decide)⟩

/-- C8 (confirmed): whenever the store is empty, the `/video_feed` chunk is
the fixed chunk built from the synthesized 480x640 placeholder carrying the
"No Video Stream" marker; and every chunk, live or placeholder, has exactly
the shape boundary ++ headers ++ body ++ CRLF. -/
theorem C8_placeholder_and_chunk_shape {Image : Type} (cv : CV Image)
    (s : SharedFrameStore Image) :
    (s.currentFrame = none →
      chunkFor cv s =
        mjpegWrap (cv.encDefault (cv.putText cv.zeros480x640 "No Video Stream"))) ∧
    ∃ body, chunkFor cv s =
      asciiBytes "--frame\r\nContent-Type: image/jpeg\r\n\r\n" ++ body ++
        asciiBytes "\r\n" := by
  constructor
  · intro h
    simp [chunkFor, h, placeholderImage]
  · cases hf : s.currentFrame with
    | some f => exact ⟨cv.enc85 f, by simp [chunkFor, hf, mjpegWrap]⟩
    | none =>
      exact ⟨cv.encDefault (placeholderImage cv), by simp [chunkFor, hf, mjpegWrap]⟩

theorem C8_placeholder_witness :
    (chunkFor mcv (⟨none⟩ : SharedFrameStore (List Nat)) =
      mjpegWrap (mcv.encDefault (mcv.putText mcv.zeros480x640 "No Video Stream"))) ∧
    ∃ body, chunkFor mcv (⟨none⟩ : SharedFrameStore (List Nat)) =
      asciiBytes "--frame\r\nContent-Type: image/jpeg\r\n\r\n" ++ body ++
        asciiBytes "\r\n" :=
  ⟨(C8_placeholder_and_chunk_shape mcv ⟨none⟩).1 rfl,
   (C8_placeholder_and_chunk_shape mcv ⟨none⟩).2⟩

/-- C9 (counterexample): not every access to the shared store happens under
the mutual-exclusion guard: the `/status` route's read of
`self.current_frame` (line 266) is performed outside any
`with self.frame_lock:` block. -/
theorem C9_counterexample :
    ¬ ∀ a ∈ allStoreAccesses, a.underLock = true := by
  decide

/-- C9 (amended): the ingest handler's write and clear and the `/video_feed`
generator's read are all performed under `frame_lock`, but the `/status`
route reads the current frame without acquiring the guard. -/
theorem C9_lock_discipline :
    ((handleClientAccesses ++ videoFeedAccesses).all fun a => a.underLock) = true ∧
    (statusAccesses.all fun a => a.underLock) = false := by
  decide

/-- C10 (confirmed): every `handle_client` run — clean close, truncation, or
error, on any incoming byte sequence and from any prior store state,
including a state written by a different producer — ends in the `finally`
block, which sets the store to empty unconditionally and reports the
disconnect. -/
theorem C10_clear_unconditional {Image : Type} (cv : CV Image)
    (stream : List Nat) (s : SharedFrameStore Image) :
    (handleClient cv stream s).1 = ⟨none⟩ ∧
    Event.disconnected ∈ (handleClient cv stream s).2 := by
  refine ⟨rfl, ?_⟩
  simp [handleClient]
